import Mathlib

/-!
# Verification of the trading-foundation simulation engine

A shallow embedding, over `ℚ`, of the core of
`resources/skills/trading-foundation/scripts/trading_foundation.py`:
the indicator engine, the pair-spread builder, the probability-overlay
fallback logic, the per-bar strategy/risk state machine, the Sharpe-style
metric, and the execution-gating risk-block bookkeeping.

Conventions used throughout:
* floating-point numbers are modelled by `ℚ`; a pandas `NaN` cell is
  modelled by `none : Option ℚ`.  `ℚ` has no infinities, so the places
  where the source maps `±inf` to `NaN` (or where `±inf` cannot arise
  from rational inputs) are noted at the definition concerned;
* pandas rolling aggregations use `min_periods = window`, so a window
  containing a `NaN` aggregates to `NaN`; the embedding requires every
  cell of the window to be `some`;
* Python `round(x, n)` is modelled as exact decimal
  round-half-to-even.
-/

namespace TradingFoundation

/-- Round a rational to the nearest integer, ties to even (Python's
`round` semantics on exact values). -/
def roundHalfEven (x : ℚ) : ℤ :=
  let f : ℤ := ⌊x⌋
  let r : ℚ := x - f
  if r < 1/2 then f
  else if r > 1/2 then f + 1
  else if f % 2 = 0 then f else f + 1

/-- Python's `round(x, n)`: round to `n` decimal places, ties to even. -/
def roundTo (n : ℕ) (x : ℚ) : ℚ :=
  (roundHalfEven (x * 10 ^ n) : ℚ) / 10 ^ n

/-- `int(x)` on a float: truncation toward zero. -/
def truncQ (x : ℚ) : ℤ :=
  if 0 ≤ x then ⌊x⌋ else -⌊-x⌋

/-- Collapse a list of optional cells: `some` of the list of values when
every cell is present, `none` as soon as one is missing (a `NaN`). -/
def allSome : List (Option ℚ) → Option (List ℚ)
  | [] => some []
  | none :: _ => none
  | some x :: xs => (allSome xs).map (x :: ·)

/-- Mean of a list of rationals (0 on the empty list, which never occurs
at use sites). -/
def listMean (xs : List ℚ) : ℚ := xs.sum / xs.length

/-- Population variance (`ddof = 0`). -/
def popVar (xs : List ℚ) : ℚ :=
  let m := listMean xs
  (xs.map (fun x => (x - m) ^ 2)).sum / xs.length

/-- Sample variance (`ddof = 1`); denominator `length - 1`. -/
def sampleVar (xs : List ℚ) : ℚ :=
  let m := listMean xs
  (xs.map (fun x => (x - m) ^ 2)).sum / (xs.length - 1 : ℚ)

/-- The trailing window of length `w` ending at index `i` (inclusive) of
`xs`, i.e. `xs[i+1-w : i+1]`. -/
def trailingWindow (w i : ℕ) (xs : List (Option ℚ)) : List (Option ℚ) :=
  (xs.take (i + 1)).drop (i + 1 - w)

/-- The cell at index `i` of `series.rolling(w).agg(f)` with pandas
defaults (`min_periods = w`): defined only when the index is in range,
`w ≤ i+1`, and all `w` cells of the trailing window are defined. -/
def rollingCell (w : ℕ) (f : List ℚ → ℚ) (xs : List (Option ℚ)) (i : ℕ) :
    Option ℚ :=
  if i < xs.length ∧ w ≤ i + 1 then (allSome (trailingWindow w i xs)).map f
  else none

/-- The cell at index `i` of `series.diff()`: `NaN` at index 0, else the
difference with the previous value. -/
def diffCell (xs : List ℚ) (i : ℕ) : Option ℚ :=
  match i, xs.get? i, xs.get? (i - 1) with
  | 0, _, _ => none
  | _ + 1, some a, some b => some (a - b)
  | _, _, _ => none

/-! ## Execution gating (`run_execute`): risk blocks and their summary

`run_execute` records every pre-trade check through the local helper
`_add_risk_block(name, status)`: the block is appended to `risk_blocks`
and, when `status` is one of the four summary buckets, the matching
`risk_summary` counter is incremented. -/

/-- One entry of `risk_blocks` (message/details fields carry no logic). -/
structure RiskBlock where
  name : String
  status : String
  deriving DecidableEq, Repr

/-- The mutable state shared by `risk_blocks` and `risk_summary` in
`run_execute`. -/
structure ExecState where
  blocks : List RiskBlock
  passCount : ℕ
  skipCount : ℕ
  blockedCount : ℕ
  failCount : ℕ
  deriving DecidableEq, Repr

/-- `risk_blocks = []`, `risk_summary = {"pass":0,"skip":0,"blocked":0,"fail":0}`. -/
def ExecState.init : ExecState := ⟨[], 0, 0, 0, 0⟩

/-- The four bucket keys of `risk_summary`. -/
def bucketStatuses : List String := ["pass", "skip", "blocked", "fail"]

/-- `_add_risk_block`: append the block, and increment the counter for
`status` when it is a key of `risk_summary`. -/
def addRiskBlock (s : ExecState) (name status : String) : ExecState :=
  let s := { s with blocks := s.blocks ++ [⟨name, status⟩] }
  if status = "pass" then { s with passCount := s.passCount + 1 }
  else if status = "skip" then { s with skipCount := s.skipCount + 1 }
  else if status = "blocked" then { s with blockedCount := s.blockedCount + 1 }
  else if status = "fail" then { s with failCount := s.failCount + 1 }
  else s

/-- The sum of the four `risk_summary` counters. -/
def ExecState.summaryTotal (s : ExecState) : ℕ :=
  s.passCount + s.skipCount + s.blockedCount + s.failCount

/-- Replay a sequence of `_add_risk_block` calls. -/
def applyRiskBlocks (calls : List (String × String)) (s : ExecState) : ExecState :=
  calls.foldl (fun acc c => addRiskBlock acc c.1 c.2) s

/-- Every `(name, status)` literal passed to `_add_risk_block` anywhere in
`run_execute`, in source order.  Any execution of `run_execute` records a
subsequence of these calls. -/
def runExecuteBlockCalls : List (String × String) :=
  [("order_amount", "blocked"), ("order_amount", "pass"),
   ("order_price", "blocked"), ("order_price", "pass"), ("order_price", "skip"),
   ("symbol_format", "blocked"), ("symbol_format", "pass"),
   ("execution_confirmation", "skip"),
   ("notional_cap", "blocked"), ("notional_cap", "pass"),
   ("notional_cap", "blocked"), ("notional_cap", "pass"),
   ("notional_cap", "skip"), ("notional_cap", "skip"),
   ("balance_cap", "skip"), ("balance_cap", "skip"),
   ("execution_confirmation", "pass"),
   ("exchange_credentials", "blocked"), ("exchange_credentials", "pass"),
   ("exchange_connection", "pass"), ("exchange_connection", "fail"),
   ("notional_cap", "fail"), ("notional_cap", "fail"),
   ("notional_cap", "blocked"), ("notional_cap", "pass"), ("notional_cap", "skip"),
   ("balance_cap", "blocked"), ("balance_cap", "pass"), ("balance_cap", "skip"),
   ("balance_cap", "skip"), ("balance_cap", "blocked"), ("balance_cap", "pass"),
   ("balance_cap", "fail"), ("balance_cap", "skip"),
   ("order_submission", "fail"), ("order_submission", "pass")]

/-! ## Strategy/Risk state machine (`run_backtest`, per-bar loop)

The loop of `run_backtest` iterates over the indicator-ready rows of the
dataframe (post-`dropna`), so every indicator cell seen by the loop is a
plain number; a row is embedded as a record of `ℚ` fields.  The `std`
column is named `stdev` here (`std` is read via `getattr(row, "std")`).
Correlation from `_safe_correlation` is carried by its square: the guard
compares `abs(corr)` with the cap, and `|corr| > cap ↔ corr² > cap²`
when the cap is positive, while `ℚ` has no square roots. -/

/-- One indicator-ready bar row, as consumed by `df.itertuples` in the
simulation loop. -/
structure SimRow where
  ts : ℤ
  close : ℚ
  low : ℚ
  high : ℚ
  volume : ℚ
  rsi : ℚ
  bbUpper : ℚ
  bbLower : ℚ
  atr : ℚ
  maFast : ℚ
  maSlow : ℚ
  trendStrength : ℚ
  sma : ℚ
  stdev : ℚ
  deriving DecidableEq, Repr

/-- The normalized `strategy_mode` values. -/
inductive Mode where
  | adaptive | meanReversion | momentum | momentumOnly | statArb
  deriving DecidableEq, Repr

/-- The normalized `params` dictionary of `run_backtest` (only the keys
the core components read). -/
structure Params where
  strategyMode : Mode
  bbWindow : ℕ
  bbStd : ℚ
  rsiPeriod : ℕ
  rsiBuy : ℚ
  rsiSell : ℚ
  momentumFast : ℕ
  momentumSlow : ℕ
  trendThreshold : ℚ
  useRegime : Bool
  maxPortfolioRisk : ℚ
  mlEnabled : Bool
  mlModelType : String
  mlConfidence : ℚ
  sentimentThreshold : ℚ
  atrWindow : ℕ
  feeRate : ℚ
  stopAtrMult : ℚ
  corrCap : ℚ
  corrWindow : ℕ
  statarbZEntry : ℚ
  statarbZExit : ℚ
  statarbZStop : ℚ
  positionSize : ℚ
  maxDrawdown : ℚ
  deriving DecidableEq, Repr

/-- One row of the trade ledger.  `amount` is present on opening trades,
`pnl`/`pnlPct` on closing trades, matching the dict keys the source
emits in each case. -/
structure Trade where
  side : String
  ts : ℤ
  price : ℚ
  qty : ℚ
  amount : Option ℚ
  pnl : Option ℚ
  pnlPct : Option ℚ
  reason : String
  posOpenTs : Option ℤ
  deriving DecidableEq, Repr

/-- A risk event: type tag, timestamp and two numeric context fields
(`equity`/`drawdown` for the drawdown breaker, `correlation²`/`cap` for
the correlation block, `price`/0 for the stat-arb entry block). -/
structure RiskEvent where
  kind : String
  ts : ℤ
  v1 : ℚ
  v2 : ℚ
  deriving DecidableEq, Repr

/-- The mutable run-local state of the simulation loop.  `haltReason`
carries the drawdown value interpolated into the halt message. -/
structure SimState where
  cash : ℚ
  peakEquity : ℚ
  positionQty : ℚ
  positionEntry : ℚ
  positionEntryTs : Option ℤ
  positionFees : ℚ
  halted : Bool
  haltReason : Option ℚ
  equityCurve : List ℚ
  trades : List Trade
  mrHistory : List ℚ
  moHistory : List ℚ
  riskEvents : List RiskEvent
  ddHits : ℕ
  corrHits : ℕ
  maxCorrAbsSq : ℚ
  deriving DecidableEq, Repr

/-- The state at the start of a run: all counters empty, cash at the
initial balance, peak equity primed with it. -/
def initState (cash : ℚ) : SimState :=
  { cash := cash, peakEquity := cash, positionQty := 0, positionEntry := 0,
    positionEntryTs := none, positionFees := 0, halted := false,
    haltReason := none, equityCurve := [], trades := [], mrHistory := [],
    moHistory := [], riskEvents := [], ddHits := 0, corrHits := 0,
    maxCorrAbsSq := 0 }

/-- `initial_cash = max(1e-9, float(args.initial_cash))`. -/
def normalizeInitialCash (x : ℚ) : ℚ := max (1 / 10 ^ 9) x

/-- `_open_trade`. -/
def openTrade (s : SimState) (ts : ℤ) (price qty fee : ℚ) (reason : String) :
    SimState :=
  let side := if 0 ≤ qty then "buy" else "sell"
  { s with
    cash := s.cash - (qty * price + fee),
    positionQty := s.positionQty + qty,
    positionEntry := price,
    positionEntryTs := some ts,
    positionFees := fee,
    trades := s.trades ++
      [{ side := side, ts := ts, price := roundTo 8 price,
         qty := roundTo 8 qty, amount := some (roundTo 8 (qty * price)),
         pnl := none, pnlPct := none, reason := reason,
         posOpenTs := some ts }] }

/-- `_close_trade`: a no-op on a flat position, else realize P&L, append
the closing ledger row and zero the position. -/
def closeTrade (feeRate : ℚ) (s : SimState) (ts : ℤ) (price : ℚ)
    (reason : String) : SimState :=
  if s.positionQty = 0 then s
  else
    let side := if 0 < s.positionQty then "sell" else "buy"
    let proceeds := s.positionQty * price
    let fee := |proceeds| * feeRate
    let pnl := (price - s.positionEntry) * s.positionQty - s.positionFees - fee
    let pnlPct0 := if 0 < s.positionEntry then (price - s.positionEntry) / s.positionEntry else 0
    let pnlPct := if s.positionQty < 0 then -pnlPct0 else pnlPct0
    { s with
      cash := s.cash + (proceeds - fee),
      trades := s.trades ++
        [{ side := side, ts := ts, price := roundTo 8 price,
           qty := roundTo 8 s.positionQty, amount := none,
           pnl := some (roundTo 8 pnl), pnlPct := some (roundTo 6 pnlPct),
           reason := reason, posOpenTs := s.positionEntryTs }],
      positionQty := 0, positionEntry := 0, positionEntryTs := none,
      positionFees := 0 }

/-- Whether a list of floats has fewer than two distinct values
(`Series.nunique() < 2`). -/
def constList (xs : List ℚ) : Bool := xs.all (fun x => x = xs.headD 0)

/-- `_safe_correlation`, represented by the square of the Pearson
correlation (the `(n-1)` normalizations of covariance and variances
cancel in the ratio).  `none` when fewer than two samples, mismatched
lengths, or either series is constant; in the remaining cases the
denominators are positive so the pandas `NaN` check never fires. -/
def safeCorrSq (left right : List ℚ) : Option ℚ :=
  if left.length < 2 ∨ left.length ≠ right.length then none
  else if constList left ∨ constList right then none
  else
    let ml := listMean left
    let mr := listMean right
    let cov := ((left.zip right).map (fun q => (q.1 - ml) * (q.2 - mr))).sum
    let vl := (left.map (fun x => (x - ml) ^ 2)).sum
    let vr := (right.map (fun x => (x - mr) ^ 2)).sum
    some (cov ^ 2 / (vl * vr))

/-- The trailing `n` elements of a list (`history[-n:]`). -/
def lastN (n : ℕ) (xs : List ℚ) : List ℚ := xs.drop (xs.length - n)

/-- Mark-to-market equity of a bar: `cash + position_qty * close`. -/
def barEquity (s : SimState) (r : SimRow) : ℚ := s.cash + s.positionQty * r.close

/-- Peak equity after seeing this bar. -/
def barPeak (s : SimState) (r : SimRow) : ℚ :=
  if s.peakEquity < barEquity s r then barEquity s r else s.peakEquity

/-- `drawdown = 1 - equity / peak` when the peak is positive, else 0. -/
def drawdownOf (peak equity : ℚ) : ℚ := if 0 < peak then 1 - equity / peak else 0

/-- The drawdown computed on a bar. -/
def barDrawdown (s : SimState) (r : SimRow) : ℚ :=
  drawdownOf (barPeak s r) (barEquity s r)

/-- The raw mean-reversion signal (always computed, for the correlation
guard). -/
def rawMeanReversionSignal (p : Params) (r : SimRow) : ℚ :=
  (if r.close ≤ r.bbLower ∧ r.rsi < p.rsiBuy then 1 else 0) -
  (if r.bbUpper ≤ r.close ∧ p.rsiSell < r.rsi then 1 else 0)

/-- The raw momentum signal (always computed, for the correlation
guard). -/
def rawMomentumSignal (p : Params) (r : SimRow) : ℚ :=
  (if r.maSlow < r.maFast ∧ r.maFast < r.close ∧ p.rsiBuy < r.rsi then 1 else 0) -
  (if r.maFast ≤ r.maSlow ∨ p.rsiSell + 5 < r.rsi then 1 else 0)

/-- `trending = (ma_fast > ma_slow) and (trend_strength >= trend_threshold)`. -/
def isTrending (p : Params) (r : SimRow) : Bool :=
  decide (r.maSlow < r.maFast ∧ p.trendThreshold ≤ r.trendStrength)

/-- Resolution of the active strategy mode for a bar: `adaptive` routes
by regime when regime routing is enabled, every other mode is fixed. -/
def resolveMode (p : Params) (r : SimRow) : Mode :=
  if p.useRegime ∧ p.strategyMode = Mode.adaptive then
    (if isTrending p r then Mode.momentum else Mode.meanReversion)
  else p.strategyMode

/-- The stat-arb z-score of a row: `(close - sma) / std` when the spread
standard deviation is positive, else 0. -/
def zscoreOf (r : SimRow) : ℚ :=
  if 0 < r.stdev then (r.close - r.sma) / r.stdev else 0

/-- The stat-arb z-score stop condition (sign-aware). -/
def statarbStopSignal (p : Params) (s : SimState) (r : SimRow) : Bool :=
  decide ((0 < s.positionQty ∧ p.statarbZStop ≤ zscoreOf r) ∨
    (s.positionQty < 0 ∧ zscoreOf r ≤ -p.statarbZStop))

/-- The stat-arb z-score soft-exit condition (sign-aware). -/
def statarbExitSignal (p : Params) (s : SimState) (r : SimRow) : Bool :=
  decide ((0 < s.positionQty ∧ p.statarbZExit ≤ zscoreOf r) ∨
    (s.positionQty < 0 ∧ zscoreOf r ≤ -p.statarbZExit))

/-- The signed stat-arb entry direction of a bar, after the optional ML
gate, the correlation block and the sentiment gate: `-1` for short, `1`
for long, `0` for no entry. -/
def statarbEntrySign (p : Params) (r : SimRow) (mlProb : ℚ)
    (sentimentOk correlationBlocked : Bool) : ℚ :=
  let longE0 := decide (zscoreOf r ≤ -p.statarbZEntry)
  let shortE0 := decide (p.statarbZEntry ≤ zscoreOf r)
  let longE1 := if p.mlEnabled then longE0 && decide (p.mlConfidence ≤ mlProb) else longE0
  let shortE1 := if p.mlEnabled then shortE0 && decide (p.mlConfidence ≤ 1 - mlProb) else shortE0
  let longE2 := if correlationBlocked then false else longE1
  let shortE2 := if correlationBlocked then false else shortE1
  let longE := longE2 && sentimentOk
  let shortE := shortE2 && sentimentOk
  if shortE ∧ ¬longE then -1 else if longE then 1 else 0

/-- The per-mode `(entry_signal, exit_signal, stop_loss_signal,
entry_qty_sign)` quadruple computed by the `if`/`elif` chain over the
active mode (the `adaptive` case is Python's trailing `else`, reached
only with regime routing disabled). -/
def modeSignals (p : Params) (s : SimState) (r : SimRow) (mlProb : ℚ)
    (sentimentOk correlationBlocked : Bool) : Bool × Bool × Bool × ℚ :=
  match resolveMode p r with
  | Mode.meanReversion =>
      (decide (r.close ≤ r.bbLower ∧ r.rsi < p.rsiBuy),
       decide (r.bbUpper ≤ r.close ∧ p.rsiSell < r.rsi), false, 0)
  | Mode.momentum =>
      (decide (r.maSlow < r.maFast ∧ r.maFast < r.close ∧ p.rsiBuy < r.rsi),
       decide (r.maFast ≤ r.maSlow ∨ p.rsiSell + 5 < r.rsi), false, 0)
  | Mode.momentumOnly =>
      (decide (r.maSlow < r.maFast ∧ r.maFast < r.close ∧ p.rsiBuy < r.rsi),
       decide (r.maFast ≤ r.maSlow ∨ p.rsiSell + 5 < r.rsi), false, 0)
  | Mode.statArb =>
      let sign := statarbEntrySign p r mlProb sentimentOk correlationBlocked
      (decide (sign ≠ 0), statarbExitSignal p s r, statarbStopSignal p s r, sign)
  | Mode.adaptive =>
      (decide (r.close ≤ r.bbLower ∧ r.rsi < p.rsiBuy),
       decide (r.bbUpper ≤ r.close ∧ p.rsiSell < r.rsi), false, 0)

/-- The entry and exit signals after the correlation suppression for
non-stat-arb modes and the ML/sentiment overlay gating. -/
def gatedSignals (p : Params) (s : SimState) (r : SimRow) (mlProb : ℚ)
    (sentimentOk correlationBlocked : Bool) : Bool × Bool :=
  let sig := modeSignals p s r mlProb sentimentOk correlationBlocked
  let mode := resolveMode p r
  let entry0 := sig.1
  let exit0 := sig.2.1
  let entry1 :=
    if correlationBlocked ∧ (mode = Mode.momentum ∨ mode = Mode.meanReversion ∨
        mode = Mode.momentumOnly) then false else entry0
  if p.mlEnabled ∧ (p.mlModelType = "random_forest" ∨ p.mlModelType = "xgboost" ∨
      p.mlModelType = "logistic") then
    if 0 ≤ p.mlConfidence then
      ((if mode ≠ Mode.statArb then
          entry1 && decide (p.mlConfidence ≤ mlProb) && sentimentOk
        else entry1),
       exit0 || decide (mlProb ≤ 1 - p.mlConfidence))
    else
      ((if mode ≠ Mode.statArb then entry1 && sentimentOk else entry1), exit0)
  else
    ((if mode ≠ Mode.statArb then entry1 && sentimentOk else entry1), exit0)

/-- `ml_prob = float(ml_probs.iloc[idx]) if ml_enabled else 0.5` (the
series is bar-aligned, so the positional lookup is total). -/
def barMlProb (p : Params) (mlProbs : List ℚ) (idx : ℕ) : ℚ :=
  if p.mlEnabled then mlProbs.getD idx (1/2) else 1/2

/-- `sentiment_score = float(sentiment.iloc[idx]) if len(sentiment) > idx else 0.0`. -/
def barSentimentScore (sent : List ℚ) (idx : ℕ) : ℚ :=
  if idx < sent.length then sent.getD idx 0 else 0

/-- `sentiment_ok = sentiment_score >= sentiment_threshold`. -/
def barSentimentOk (p : Params) (sent : List ℚ) (idx : ℕ) : Bool :=
  decide (p.sentimentThreshold ≤ barSentimentScore sent idx)

/-- The rolling correlation (squared) of the two signal histories after
appending the current bar's raw signals, computed once the momentum
history reaches the correlation window.  The histories are untouched by
everything that precedes the correlation check within a bar, so they are
read from the incoming state. -/
def barCorrSq (p : Params) (s : SimState) (r : SimRow) : Option ℚ :=
  let moH := s.moHistory ++ [rawMomentumSignal p r]
  let mrH := s.mrHistory ++ [rawMeanReversionSignal p r]
  if p.corrWindow ≤ moH.length then
    safeCorrSq (lastN p.corrWindow moH) (lastN p.corrWindow mrH)
  else none

/-- Whether the correlation guard blocks new entries on this bar:
a defined correlation whose magnitude exceeds a positive cap. -/
def barCorrBlocked (p : Params) (s : SimState) (r : SimRow) : Bool :=
  match barCorrSq p s r with
  | some c => decide (0 < p.corrCap ∧ p.corrCap ^ 2 < c)
  | none => false

/-- The state of an active (non-halted, non-tripping) bar after equity
marking, signal-history appending and correlation bookkeeping, before
any stop/exit/entry transition. -/
def activeBarState (p : Params) (s : SimState) (r : SimRow) : SimState :=
  let corrSq := barCorrSq p s r
  let correlationBlocked := barCorrBlocked p s r
  { s with
    peakEquity := barPeak s r,
    equityCurve := s.equityCurve ++ [barEquity s r],
    mrHistory := s.mrHistory ++ [rawMeanReversionSignal p r],
    moHistory := s.moHistory ++ [rawMomentumSignal p r],
    maxCorrAbsSq := match corrSq with
      | some c => max s.maxCorrAbsSq c
      | none => s.maxCorrAbsSq,
    corrHits := s.corrHits + (if correlationBlocked then 1 else 0),
    riskEvents := s.riskEvents ++
      (if correlationBlocked then
        [⟨"strategy_correlation_block", r.ts, corrSq.getD 0, p.corrCap⟩]
      else []) }

/-- One iteration of the simulation loop of `run_backtest` at bar index
`idx`.  `mlProbs` and `sent` are the bar-aligned probability and
sentiment series.  The source's flag-and-`continue` flow is rendered as
three explicit branches — already halted, drawdown circuit firing, and
the active bar — and each Python `continue` corresponds to returning the
state built so far.  Position fields read inside the active branch come
from the incoming state, which is exact because the one earlier mutation
(the drawdown force-close) halts the bar. -/
def stepBar (p : Params) (mlProbs sent : List ℚ) (idx : ℕ) (s : SimState)
    (r : SimRow) : SimState :=
  let mlProb : ℚ := barMlProb p mlProbs idx
  let sentimentOk : Bool := barSentimentOk p sent idx
  let equity := barEquity s r
  let dd := barDrawdown s r
  if s.halted then
    { s with
      peakEquity := barPeak s r,
      equityCurve := s.equityCurve ++ [equity] }
  else if p.maxDrawdown ≤ dd then
    let s0 := { s with peakEquity := barPeak s r }
    let sa := if 0 < s0.positionQty then closeTrade p.feeRate s0 r.ts r.close "drawdown-halt" else s0
    let sb := if sa.positionQty < 0 then closeTrade p.feeRate sa r.ts r.close "drawdown-halt" else sa
    { sb with
      halted := true,
      haltReason := some dd,
      ddHits := sb.ddHits + 1,
      riskEvents := sb.riskEvents ++
        [⟨"drawdown_circuit_breaker", r.ts, roundTo 8 equity, roundTo 6 dd⟩],
      equityCurve := sb.equityCurve ++ [equity] }
  else
    let correlationBlocked := barCorrBlocked p s r
    let s4 := activeBarState p s r
    let mode := resolveMode p r
    let sig := modeSignals p s r mlProb sentimentOk correlationBlocked
    let gated := gatedSignals p s r mlProb sentimentOk correlationBlocked
    let entrySignal := gated.1
    let exitSignal := gated.2
    let stopLossSignal := sig.2.2.1
    let qtySign := sig.2.2.2
    if 0 < r.atr ∧ 0 < s.positionQty then
      let stopPrice := s.positionEntry - p.stopAtrMult * r.atr
      if r.low ≤ stopPrice then
        closeTrade p.feeRate s4 r.ts (max stopPrice (1 / 10 ^ 8)) "stop_loss_atr"
      else if stopLossSignal then
        closeTrade p.feeRate s4 r.ts (max stopPrice (1 / 10 ^ 8)) "statarb_stop_loss"
      else if exitSignal then
        closeTrade p.feeRate s4 r.ts r.close "exit_signal"
      else s4
    else if 0 < r.atr ∧ s.positionQty < 0 then
      let stopPrice := s.positionEntry + p.stopAtrMult * r.atr
      if stopPrice ≤ r.high then
        closeTrade p.feeRate s4 r.ts (max stopPrice (1 / 10 ^ 8)) "stop_loss_atr_short"
      else if stopLossSignal then
        closeTrade p.feeRate s4 r.ts (max stopPrice (1 / 10 ^ 8)) "statarb_stop_loss"
      else if exitSignal then
        closeTrade p.feeRate s4 r.ts r.close "exit_signal"
      else s4
    else if s.positionQty = 0 ∧ entrySignal then
      if mode = Mode.statArb ∧ correlationBlocked then s4
      else
        let alloc := min (s.cash * p.maxPortfolioRisk) (s.cash * p.positionSize)
        if 0 < alloc then
          -- `np.isfinite(size_price)` cannot fail over `ℚ`; only the
          -- spread-floor test of the stat-arb branch remains.
          if mode = Mode.statArb ∧ |r.close| < 1 / 10 ^ 6 then
            { s4 with
              riskEvents := s4.riskEvents ++
                [⟨"statarb_entry_block", r.ts, r.close, 0⟩] }
          else
            let sizePrice := if mode = Mode.statArb then max |r.close| (1 / 10 ^ 6) else r.close
            -- `qty = qty * entry_qty_sign` covers the redundant
            -- `if entry_qty_sign == 0: qty = 0` assignment.
            let qty := if mode = Mode.statArb then (alloc / sizePrice) * qtySign
              else alloc / sizePrice
            let reason := if mode = Mode.statArb then "entry_signal_statarb" else "entry_signal"
            let fee := alloc * p.feeRate
            if qty ≠ 0 then openTrade s4 r.ts r.close qty |fee| reason else s4
        else s4
    else s4

/-- The simulation loop from bar index `idx` onward. -/
def simulateFrom (p : Params) (mlProbs sent : List ℚ) :
    ℕ → SimState → List SimRow → SimState
  | _, s, [] => s
  | idx, s, r :: rest =>
      simulateFrom p mlProbs sent (idx + 1) (stepBar p mlProbs sent idx s r) rest

/-- The whole bar loop of `run_backtest`, from the initial state. -/
def runBacktestLoop (p : Params) (mlProbs sent : List ℚ) (cash : ℚ)
    (rows : List SimRow) : SimState :=
  simulateFrom p mlProbs sent 0 (initState cash) rows

/-- The bar loop followed by the end-of-data force close: any position
still open after the final bar is closed at that bar's close with reason
`eod_close`. -/
def runBacktestSim (p : Params) (mlProbs sent : List ℚ) (cash : ℚ)
    (rows : List SimRow) : SimState :=
  let s := runBacktestLoop p mlProbs sent cash rows
  match rows.getLast? with
  | some lastRow =>
      if s.positionQty ≠ 0 then closeTrade p.feeRate s lastRow.ts lastRow.close "eod_close"
      else s
  | none => s

/-- `risk_controls["drawdown_circuit_enabled"] = params["max_drawdown"] > 0`. -/
def drawdownCircuitEnabled (p : Params) : Bool := decide (0 < p.maxDrawdown)

/-! ## Configuration normalization (`run_backtest`, params construction)

The raw CLI arguments carry the `argparse` types (`type=int` fields as
`ℤ`, `type=float` fields as `ℚ`), so the `_to_float(x, default)`
fallbacks of the source are identities here. -/

/-- The backtest-relevant CLI arguments. -/
structure Args where
  strategyMode : String
  bbWindow : ℤ
  bbStd : ℚ
  rsiPeriod : ℤ
  rsiBuy : ℚ
  rsiSell : ℚ
  momentumFast : ℤ
  momentumSlow : ℤ
  trendThreshold : ℚ
  useRegime : Bool
  maxPortfolioRisk : ℚ
  mlEnabled : Bool
  modelType : String
  mlConfidence : ℚ
  sentimentThreshold : ℚ
  atrWindow : ℤ
  feeRate : ℚ
  stopAtrMult : ℚ
  corrCap : ℚ
  corrWindow : ℤ
  statarbZEntry : ℚ
  statarbZExit : ℚ
  statarbZStop : ℚ
  positionSize : ℚ
  maxDrawdown : ℚ

/-- `_safe_position_size`: non-positive values become 0.01, values above
1 are clamped to 1. -/
def safePositionSize (v : ℚ) : ℚ :=
  if v ≤ 0 then 1/100 else if 1 < v then 1 else v

/-- `strategy_mode` normalization: lower-case, anything outside the five
known modes falls back to `adaptive`. -/
def parseMode (sm : String) : Mode :=
  let s := sm.toLower
  if s = "mean-reversion" then Mode.meanReversion
  else if s = "momentum" then Mode.momentum
  else if s = "momentum-only" then Mode.momentumOnly
  else if s = "stat-arb" then Mode.statArb
  else Mode.adaptive

/-- The `params` dictionary built at the top of `run_backtest`,
including the follow-up fix `momentum_fast = max(2, momentum_slow - 1)`
applied when the clamped fast window is not below the clamped slow
window. -/
def normalizeParams (a : Args) : Params :=
  let fast0 : ℤ := max 2 a.momentumFast
  let slow0 : ℤ := max 2 a.momentumSlow
  let fast1 : ℤ := if slow0 ≤ fast0 then max 2 (slow0 - 1) else fast0
  { strategyMode := parseMode a.strategyMode,
    bbWindow := (max 2 a.bbWindow).toNat,
    bbStd := a.bbStd,
    rsiPeriod := (max 2 a.rsiPeriod).toNat,
    rsiBuy := a.rsiBuy,
    rsiSell := a.rsiSell,
    momentumFast := fast1.toNat,
    momentumSlow := slow0.toNat,
    trendThreshold := max (1/10000) a.trendThreshold,
    useRegime := a.useRegime,
    maxPortfolioRisk := min 1 (max 0 a.maxPortfolioRisk),
    mlEnabled := a.mlEnabled,
    mlModelType := a.modelType,
    mlConfidence := a.mlConfidence,
    sentimentThreshold := a.sentimentThreshold,
    atrWindow := (max 2 a.atrWindow).toNat,
    feeRate := a.feeRate,
    stopAtrMult := a.stopAtrMult,
    corrCap := a.corrCap,
    corrWindow := (max 20 a.corrWindow).toNat,
    statarbZEntry := a.statarbZEntry,
    statarbZExit := |a.statarbZExit|,
    statarbZStop := |a.statarbZStop|,
    positionSize := safePositionSize a.positionSize,
    maxDrawdown := a.maxDrawdown }

/-- The `argparse` default arguments of the backtest subcommands. -/
def defaultArgs : Args :=
  { strategyMode := "adaptive", bbWindow := 20, bbStd := 2, rsiPeriod := 14,
    rsiBuy := 30, rsiSell := 70, momentumFast := 50, momentumSlow := 200,
    trendThreshold := 1/400, useRegime := true, maxPortfolioRisk := 1/20,
    mlEnabled := false, modelType := "random_forest", mlConfidence := 11/20,
    sentimentThreshold := 0, atrWindow := 14, feeRate := 1/2500,
    stopAtrMult := 2, corrCap := 7/10, corrWindow := 120, statarbZEntry := 2,
    statarbZExit := 0, statarbZStop := 7/2, positionSize := 1/50,
    maxDrawdown := 1/10 }

/-! ## Indicator engine (`_add_indicators`, `_rsi`)

Columns are embedded as per-index cells over the cleaned bar list.  The
`std` column of the source is `rolling(bb_window).std(ddof=0)`; `ℚ` has
no square roots, so that column (and through it the band bounds) is
represented by the population *variance*.  The square root is
definedness-preserving and strictly monotone on the nonnegatives, and
every theorem below depends only on whether a cell is defined, never on
the represented magnitude. -/

/-- One cleaned OHLCV bar (the `open` column is `opn`: `open` is a Lean
keyword). -/
structure Bar where
  ts : ℤ
  opn : ℚ
  high : ℚ
  low : ℚ
  close : ℚ
  volume : ℚ
  deriving DecidableEq, Repr

/-- `close.rolling(bb_window).mean()` at index `i`. -/
def smaCell (p : Params) (closes : List ℚ) (i : ℕ) : Option ℚ :=
  rollingCell p.bbWindow listMean (closes.map some) i

/-- `close.rolling(bb_window).std(ddof=0)` at index `i`, represented by
the population variance. -/
def stdSqCell (p : Params) (closes : List ℚ) (i : ℕ) : Option ℚ :=
  rollingCell p.bbWindow popVar (closes.map some) i

/-- `delta.clip(lower=0.0)` applied to `close.diff()`. -/
def upList (closes : List ℚ) : List (Option ℚ) :=
  (List.range closes.length).map fun i => (diffCell closes i).map (fun d => max d 0)

/-- `-delta.clip(upper=0.0)` applied to `close.diff()`. -/
def downList (closes : List ℚ) : List (Option ℚ) :=
  (List.range closes.length).map fun i => (diffCell closes i).map (fun d => max (-d) 0)

/-- `_rsi` at index `i`: average gain over average loss mapped to 0–100,
with a zero average loss mapped to `NaN` (`avg_loss.replace(0, nan)`),
not infinity. -/
def rsiCell (period : ℕ) (closes : List ℚ) (i : ℕ) : Option ℚ :=
  match rollingCell period listMean (upList closes) i,
      rollingCell period listMean (downList closes) i with
  | some g, some l => if l = 0 then none else some (100 - 100 / (1 + g / l))
  | _, _ => none

/-- `close.rolling(w).mean()` at index `i` (fast/slow trend averages). -/
def maCell (w : ℕ) (closes : List ℚ) (i : ℕ) : Option ℚ :=
  rollingCell w listMean (closes.map some) i

/-- `(ma_fast - ma_slow).abs() / ma_slow.replace(0, nan)` at index `i`. -/
def trendStrengthCell (p : Params) (closes : List ℚ) (i : ℕ) : Option ℚ :=
  match maCell p.momentumFast closes i, maCell p.momentumSlow closes i with
  | some f, some s => if s = 0 then none else some (|f - s| / s)
  | _, _ => none

/-- The true range of a bar given the previous close; `DataFrame.max`
skips the `NaN`s of the shifted close on the first row, leaving
`high - low` there. -/
def trCell (b : Bar) (prev : Option Bar) : ℚ :=
  match prev with
  | none => b.high - b.low
  | some q => max (b.high - b.low) (max |b.high - q.close| |b.low - q.close|)

/-- The true-range column. -/
def trList (bars : List Bar) : List ℚ :=
  (List.range bars.length).map fun i =>
    match bars.get? i with
    | some b => trCell b (if i = 0 then none else bars.get? (i - 1))
    | none => 0

/-- `tr.rolling(atr_window).mean()` at index `i`. -/
def atrCell (p : Params) (bars : List Bar) (i : ℕ) : Option ℚ :=
  rollingCell p.atrWindow listMean ((trList bars).map some) i

/-- Row `i` of the indicator-augmented frame: defined exactly when the
bar exists and every indicator column of the `dropna` subset (`sma`,
`std`, `bb_upper`, `bb_lower`, `rsi`, `atr`, `ma_fast`, `ma_slow`,
`trend_strength`) is defined there; the band bounds are defined exactly
when `sma` and `std` are. -/
def indicatorRow (p : Params) (bars : List Bar) (i : ℕ) : Option SimRow := do
  let b ← bars.get? i
  let closes := bars.map Bar.close
  let sma ← smaCell p closes i
  let sq ← stdSqCell p closes i
  let rsiv ← rsiCell p.rsiPeriod closes i
  let atrv ← atrCell p bars i
  let mf ← maCell p.momentumFast closes i
  let ms ← maCell p.momentumSlow closes i
  let tst ← trendStrengthCell p closes i
  pure { ts := b.ts, close := b.close, low := b.low, high := b.high,
         volume := b.volume, rsi := rsiv, bbUpper := sma + p.bbStd * sq,
         bbLower := sma - p.bbStd * sq, atr := atrv, maFast := mf,
         maSlow := ms, trendStrength := tst, sma := sma, stdev := sq }

/-- The indicator frame, aligned 1:1 with the input bars. -/
def indicatorRows (p : Params) (bars : List Bar) : List (Option SimRow) :=
  (List.range bars.length).map (indicatorRow p bars)

/-- The rows surviving `dropna` on the indicator columns — the rows the
state machine simulates. -/
def indicatorReadyRows (p : Params) (bars : List Bar) : List SimRow :=
  (List.range bars.length).filterMap (indicatorRow p bars)

/-- The largest configured lookback window. -/
def maxIndicatorWindow (p : Params) : ℕ :=
  max (max (max p.bbWindow p.rsiPeriod) (max p.momentumFast p.momentumSlow))
    p.atrWindow

/-- The `params` produced by `run_backtest` from the `argparse` defaults
(`--bb-window 20`, `--rsi-period 14`, `--fee-rate 0.0004`, …). -/
def defaultParams : Params :=
  { strategyMode := Mode.adaptive, bbWindow := 20, bbStd := 2, rsiPeriod := 14,
    rsiBuy := 30, rsiSell := 70, momentumFast := 50, momentumSlow := 200,
    trendThreshold := 1/400, useRegime := true, maxPortfolioRisk := 1/20,
    mlEnabled := false, mlModelType := "random_forest", mlConfidence := 11/20,
    sentimentThreshold := 0, atrWindow := 14, feeRate := 1/2500,
    stopAtrMult := 2, corrCap := 7/10, corrWindow := 120, statarbZEntry := 2,
    statarbZExit := 0, statarbZStop := 7/2, positionSize := 1/50,
    maxDrawdown := 1/10 }

/-- A bar on which the default adaptive strategy opens a long position
(close at the lower band, oversold oscillator, non-trending averages). -/
def oversoldRow : SimRow :=
  { ts := 0, close := 10, low := 10, high := 10, volume := 1, rsi := 20,
    bbUpper := 100, bbLower := 11, atr := 1, maFast := 1, maSlow := 2,
    trendStrength := 0, sma := 10, stdev := 1 }

/-- Five bars with strictly rising closes: every bar gains, so the
rolling average loss is 0 and the oscillator is undefined on every row. -/
def risingBars : List Bar :=
  [⟨0, 1, 1, 1, 1, 1⟩, ⟨1, 2, 2, 2, 2, 1⟩, ⟨2, 3, 3, 3, 3, 1⟩,
   ⟨3, 4, 4, 4, 4, 1⟩, ⟨4, 5, 5, 5, 5, 1⟩]

/-- Three bars whose close zig-zags (1, 2, 1), giving both a gain and a
loss inside a 2-bar window. -/
def zigzagBars : List Bar :=
  [⟨0, 1, 1, 1, 1, 1⟩, ⟨1, 2, 2, 2, 2, 1⟩, ⟨2, 1, 1, 1, 1, 1⟩]

/-- Parameters with every window at its minimum of 2. -/
def smallWindowParams : Params :=
  { defaultParams with
    bbWindow := 2,
    rsiPeriod := 2,
    momentumFast := 2,
    momentumSlow := 2,
    atrWindow := 2 }

/-- The single indicator-ready row of `zigzagBars` under
`smallWindowParams` (row 2; the `stdev` cell carries the population
variance 1/4). -/
def zigzagReadyRow : SimRow :=
  { ts := 2, close := 1, low := 1, high := 1, volume := 1, rsi := 50,
    bbUpper := 2, bbLower := 1, atr := 1, maFast := 3/2, maSlow := 3/2,
    trendStrength := 0, sma := 3/2, stdev := 1/4 }

/-- Stat-arb configuration with entry threshold z = 1 (all other values
at their defaults). -/
def statArbParams : Params :=
  { defaultParams with strategyMode := Mode.statArb, statarbZEntry := 1 }

/-- A spread bar with z-score `(2 - 0) / 1 = 2`, triggering a short
stat-arb entry under `statArbParams`. -/
def shortEntryRow : SimRow :=
  { ts := 0, close := 2, low := 2, high := 2, volume := 1, rsi := 50,
    bbUpper := 100, bbLower := 0, atr := 1, maFast := 1, maSlow := 2,
    trendStrength := 0, sma := 0, stdev := 1 }

/-- A spread bar whose high (6) crosses the short ATR stop
`entry 2 + 2 × ATR 1 = 4` of the position opened on `shortEntryRow`. -/
def shortStopRow : SimRow :=
  { ts := 1, close := 5, low := 5, high := 6, volume := 1, rsi := 50,
    bbUpper := 100, bbLower := 0, atr := 1, maFast := 1, maSlow := 2,
    trendStrength := 0, sma := 5, stdev := 1 }

/-- A run-local state holding a long position of 10 units entered at 10. -/
def longOpenState : SimState :=
  { initState 10000 with positionQty := 10, positionEntry := 10 }

/-- A run-local state holding a short position of 10 units entered at 10. -/
def shortOpenState : SimState :=
  { initState 10000 with positionQty := -10, positionEntry := 10 }

/-- A bar whose low (7) crosses the long ATR stop `10 - 2 × 1 = 8`. -/
def atrStopLongRow : SimRow :=
  { ts := 0, close := 10, low := 7, high := 10, volume := 1, rsi := 50,
    bbUpper := 100, bbLower := 0, atr := 1, maFast := 1, maSlow := 2,
    trendStrength := 0, sma := 10, stdev := 1 }

/-- A bar whose high (13) crosses the short ATR stop `10 + 2 × 1 = 12`. -/
def atrStopShortRow : SimRow :=
  { ts := 0, close := 10, low := 10, high := 13, volume := 1, rsi := 50,
    bbUpper := 100, bbLower := 0, atr := 1, maFast := 1, maSlow := 2,
    trendStrength := 0, sma := 10, stdev := 1 }

end TradingFoundation

namespace TradingFoundation

lemma addRiskBlock_blocks_len (s : ExecState) (n st : String) :
    (addRiskBlock s n st).blocks.length = s.blocks.length + 1 := by
  unfold addRiskBlock
  split_ifs <;> simp

lemma addRiskBlock_summaryTotal_of_bucket (s : ExecState) (n st : String)
    (h : st ∈ bucketStatuses) :
    (addRiskBlock s n st).summaryTotal = s.summaryTotal + 1 := by
  unfold addRiskBlock ExecState.summaryTotal
  fin_cases h <;> simp <;> ring

lemma applyRiskBlocks_invariant (calls : List (String × String)) (s : ExecState)
    (hb : ∀ c ∈ calls, c.2 ∈ bucketStatuses)
    (hs : s.summaryTotal = s.blocks.length) :
    (applyRiskBlocks calls s).summaryTotal = (applyRiskBlocks calls s).blocks.length := by
  induction calls generalizing s with
  | nil => simpa [applyRiskBlocks]
  | cons c rest ih =>
    simp only [applyRiskBlocks, List.foldl_cons] at *
    apply ih
    · intro d hd; exact hb d (List.mem_cons_of_mem _ hd)
    · rw [addRiskBlock_summaryTotal_of_bucket s c.1 c.2 (hb c (List.mem_cons_self _ _)),
        addRiskBlock_blocks_len, hs]

/-- C9: in every execution-gating report, the sum of the four
`risk_summary` counters (`pass`, `skip`, `blocked`, `fail`) equals the
number of entries of `risk_blocks`.  Every status literal ever passed to
`_add_risk_block` in `run_execute` is one of the four buckets, and any
trace of calls drawn from those statuses keeps the counter sum equal to
the block count. -/
theorem risk_summary_matches_risk_blocks :
    (∀ c ∈ runExecuteBlockCalls, c.2 ∈ bucketStatuses) ∧
    (∀ trace : List (String × String),
      (∀ c ∈ trace, c.2 ∈ bucketStatuses) →
      (applyRiskBlocks trace ExecState.init).summaryTotal =
        (applyRiskBlocks trace ExecState.init).blocks.length) := by
  constructor
  · decide
  · intro trace hb
    exact applyRiskBlocks_invariant trace ExecState.init hb rfl

lemma closeTrade_positionQty (fr : ℚ) (s : SimState) (ts : ℤ) (price : ℚ)
    (rc : String) : (closeTrade fr s ts price rc).positionQty = 0 := by
  unfold closeTrade
  by_cases h : s.positionQty = 0
  · rw [if_pos h]; exact h
  · rw [if_neg h]

lemma closeTrade_trades_of_ne (fr : ℚ) (s : SimState) (ts : ℤ) (price : ℚ)
    (rc : String) (h : s.positionQty ≠ 0) :
    ∃ t : Trade, (closeTrade fr s ts price rc).trades = s.trades ++ [t] ∧
      t.reason = rc ∧ t.price = roundTo 8 price := by
  unfold closeTrade
  rw [if_neg h]
  exact ⟨_, rfl, rfl, rfl⟩

/-- On a bar that starts halted, the loop body only marks equity: the
peak is refreshed and one equity point is appended, everything else is
untouched. -/
lemma stepBar_of_halted (p : Params) (probs sent : List ℚ) (idx : ℕ)
    (s : SimState) (r : SimRow) (h : s.halted = true) :
    stepBar p probs sent idx s r =
      { s with
        peakEquity := barPeak s r,
        equityCurve := s.equityCurve ++ [barEquity s r] } := by
  unfold stepBar
  simp [h]

/-- Processing any tail of bars from a halted state changes nothing but
the peak equity and the equity curve, which gains one point per bar. -/
lemma simulateFrom_of_halted (p : Params) (probs sent : List ℚ)
    (rows : List SimRow) : ∀ (idx : ℕ) (s : SimState), s.halted = true →
    (simulateFrom p probs sent idx s rows).halted = true ∧
    (simulateFrom p probs sent idx s rows).trades = s.trades ∧
    (simulateFrom p probs sent idx s rows).riskEvents = s.riskEvents ∧
    (simulateFrom p probs sent idx s rows).positionQty = s.positionQty ∧
    (simulateFrom p probs sent idx s rows).moHistory = s.moHistory ∧
    (simulateFrom p probs sent idx s rows).equityCurve.length =
      s.equityCurve.length + rows.length := by
  induction rows with
  | nil => intro idx s h; simp [simulateFrom, h]
  | cons r rest ih =>
    intro idx s h
    have hstep := stepBar_of_halted p probs sent idx s r h
    have hh : (stepBar p probs sent idx s r).halted = true := by rw [hstep]; exact h
    have := ih (idx + 1) (stepBar p probs sent idx s r) hh
    simpa [simulateFrom, hstep, Nat.add_comm, Nat.add_left_comm] using this

/-- C3: once `halted` is entered it is terminal: over any remaining bars
the trade ledger and the risk-event list are unchanged (so no
`entry_signal`/`entry_signal_statarb` trade and no further drawdown
event is ever appended), the halted flag stays set, and exactly one
mark-to-market equity point is appended per remaining bar. -/
theorem halted_is_terminal (p : Params) (probs sent : List ℚ) (idx : ℕ)
    (s : SimState) (rows : List SimRow) (h : s.halted = true) :
    (simulateFrom p probs sent idx s rows).halted = true ∧
    (simulateFrom p probs sent idx s rows).trades = s.trades ∧
    (simulateFrom p probs sent idx s rows).riskEvents = s.riskEvents ∧
    (simulateFrom p probs sent idx s rows).equityCurve.length =
      s.equityCurve.length + rows.length :=
  ⟨(simulateFrom_of_halted p probs sent rows idx s h).1,
   (simulateFrom_of_halted p probs sent rows idx s h).2.1,
   (simulateFrom_of_halted p probs sent rows idx s h).2.2.1,
   (simulateFrom_of_halted p probs sent rows idx s h).2.2.2.2.2⟩

/-- `runBacktestSim` on a non-empty bar list reduces to the loop state,
force-closed at the final bar when a position is still open. -/
lemma runBacktestSim_eq (p : Params) (probs sent : List ℚ) (cash : ℚ)
    (rows : List SimRow) (h : rows ≠ []) :
    runBacktestSim p probs sent cash rows =
      (if (runBacktestLoop p probs sent cash rows).positionQty ≠ 0 then
        closeTrade p.feeRate (runBacktestLoop p probs sent cash rows)
          (rows.getLast h).ts (rows.getLast h).close "eod_close"
      else runBacktestLoop p probs sent cash rows) := by
  unfold runBacktestSim
  rw [List.getLast?_eq_getLast rows h]

/-- Witness for C3: from a concrete halted state, one further bar leaves
the ledger and risk events untouched and appends exactly one equity
point. -/
theorem halted_is_terminal_witness :
    ({ initState 100 with halted := true } : SimState).halted = true ∧
    ((simulateFrom defaultParams [] [] 0 { initState 100 with halted := true }
        [oversoldRow]).halted = true ∧
      (simulateFrom defaultParams [] [] 0 { initState 100 with halted := true }
        [oversoldRow]).trades =
        ({ initState 100 with halted := true } : SimState).trades ∧
      (simulateFrom defaultParams [] [] 0 { initState 100 with halted := true }
        [oversoldRow]).riskEvents =
        ({ initState 100 with halted := true } : SimState).riskEvents ∧
      (simulateFrom defaultParams [] [] 0 { initState 100 with halted := true }
        [oversoldRow]).equityCurve.length =
        ({ initState 100 with halted := true } : SimState).equityCurve.length +
          [oversoldRow].length) :=
  ⟨rfl, halted_is_terminal defaultParams [] [] 0
    { initState 100 with halted := true } [oversoldRow] rfl⟩

/-- C2: after the final bar the simulated position is always zero; when
the bar loop left a position open, it was force-closed at the final
bar's close price with reason `eod_close`. -/
theorem eod_close_leaves_flat (p : Params) (probs sent : List ℚ) (cash : ℚ)
    (rows : List SimRow) (h : rows ≠ []) :
    (runBacktestSim p probs sent cash rows).positionQty = 0 ∧
    ((runBacktestLoop p probs sent cash rows).positionQty ≠ 0 →
      ∃ t : Trade,
        (runBacktestSim p probs sent cash rows).trades.getLast? = some t ∧
        t.reason = "eod_close" ∧
        t.price = roundTo 8 (rows.getLast h).close) := by
  rw [runBacktestSim_eq p probs sent cash rows h]
  by_cases hq : (runBacktestLoop p probs sent cash rows).positionQty ≠ 0
  · rw [if_pos hq]
    obtain ⟨t, ht, hr, hp⟩ := closeTrade_trades_of_ne p.feeRate
      (runBacktestLoop p probs sent cash rows) (rows.getLast h).ts
      (rows.getLast h).close "eod_close" hq
    refine ⟨closeTrade_positionQty _ _ _ _ _, fun _ => ⟨t, ?_, hr, hp⟩⟩
    rw [ht]
    simp
  · rw [if_neg hq]
    push_neg at hq
    exact ⟨hq, fun hc => absurd hq hc⟩

set_option maxRecDepth 8000 in
/-- Witness for C2: on one oversold bar the default strategy opens a
long position, so the loop ends with a non-zero position and the run is
flattened by an `eod_close` trade at that bar's close. -/
theorem eod_close_leaves_flat_witness :
    ([oversoldRow] ≠ ([] : List SimRow)) ∧
    (runBacktestLoop defaultParams [] [] 10000 [oversoldRow]).positionQty ≠ 0 ∧
    ((runBacktestSim defaultParams [] [] 10000 [oversoldRow]).positionQty = 0 ∧
      ∃ t : Trade,
        (runBacktestSim defaultParams [] [] 10000 [oversoldRow]).trades.getLast? = some t ∧
        t.reason = "eod_close" ∧
        t.price = roundTo 8 (([oversoldRow].getLast (by simp)).close)) := by
  have hq : (runBacktestLoop defaultParams [] [] 10000 [oversoldRow]).positionQty ≠ 0 := by
    norm_num [runBacktestLoop, simulateFrom, stepBar, initState, defaultParams, oversoldRow,
      barEquity, barPeak, barDrawdown, drawdownOf, gatedSignals, modeSignals, resolveMode,
      isTrending, rawMeanReversionSignal, rawMomentumSignal, statarbEntrySign,
      statarbExitSignal, statarbStopSignal, zscoreOf, safeCorrSq, lastN, openTrade,
      closeTrade, roundTo, roundHalfEven, constList, listMean, barMlProb, barSentimentScore,
      barSentimentOk, barCorrSq, barCorrBlocked, activeBarState,
      show Mode.meanReversion ≠ Mode.statArb from by decide]
  exact ⟨by simp, hq,
    (eod_close_leaves_flat defaultParams [] [] 10000 [oversoldRow] (by simp)).1,
    (eod_close_leaves_flat defaultParams [] [] 10000 [oversoldRow] (by simp)).2 hq⟩

/-- The first bar of a run with a non-positive drawdown limit trips the
drawdown circuit immediately: drawdown 0 already meets the limit. -/
lemma stepBar_init_halt (p : Params) (probs sent : List ℚ) (r : SimRow)
    (cash : ℚ) (hc : 0 < cash) (hmd : p.maxDrawdown ≤ 0) :
    stepBar p probs sent 0 (initState cash) r =
      { initState cash with
        halted := true,
        haltReason := some (barDrawdown (initState cash) r),
        ddHits := 1,
        equityCurve := [barEquity (initState cash) r],
        riskEvents := [⟨"drawdown_circuit_breaker", r.ts,
          roundTo 8 (barEquity (initState cash) r),
          roundTo 6 (barDrawdown (initState cash) r)⟩] } := by
  have he : barEquity (initState cash) r = cash := by simp [barEquity, initState]
  have hp : barPeak (initState cash) r = cash := by
    unfold barPeak
    rw [he]
    simp [initState]
  have hd : barDrawdown (initState cash) r = 0 := by
    unfold barDrawdown
    rw [he, hp]
    unfold drawdownOf
    rw [if_pos hc, div_self (ne_of_gt hc)]
    norm_num
  unfold stepBar
  simp only [he, hp, hd]
  simp [initState, hmd]

/-- C10: with `max_drawdown ≤ 0` the drawdown circuit fires on the very
first simulated bar (drawdown 0 already meets the limit), before any
signal is evaluated: the run ends halted, with an empty trade ledger and
empty signal histories, even though `risk_controls` reports the drawdown
circuit as disabled. -/
theorem nonpositive_max_drawdown_halts_immediately (p : Params)
    (probs sent : List ℚ) (x : ℚ) (r0 : SimRow) (rest : List SimRow)
    (hmd : p.maxDrawdown ≤ 0) :
    (stepBar p probs sent 0 (initState (normalizeInitialCash x)) r0).halted = true ∧
    (runBacktestSim p probs sent (normalizeInitialCash x) (r0 :: rest)).halted = true ∧
    (runBacktestSim p probs sent (normalizeInitialCash x) (r0 :: rest)).trades = [] ∧
    (runBacktestSim p probs sent (normalizeInitialCash x) (r0 :: rest)).moHistory = [] ∧
    drawdownCircuitEnabled p = false := by
  have hc : 0 < normalizeInitialCash x :=
    lt_of_lt_of_le (by norm_num) (le_max_left _ _)
  have hstep := stepBar_init_halt p probs sent r0 (normalizeInitialCash x) hc hmd
  have hh : (stepBar p probs sent 0 (initState (normalizeInitialCash x)) r0).halted = true := by
    rw [hstep]
  have htr : (stepBar p probs sent 0 (initState (normalizeInitialCash x)) r0).trades = [] := by
    rw [hstep]; simp [initState]
  have hmo : (stepBar p probs sent 0 (initState (normalizeInitialCash x)) r0).moHistory = [] := by
    rw [hstep]; simp [initState]
  have hq : (stepBar p probs sent 0 (initState (normalizeInitialCash x)) r0).positionQty = 0 := by
    rw [hstep]; simp [initState]
  have hterm := simulateFrom_of_halted p probs sent rest 1
    (stepBar p probs sent 0 (initState (normalizeInitialCash x)) r0) hh
  have hloop : runBacktestLoop p probs sent (normalizeInitialCash x) (r0 :: rest) =
      simulateFrom p probs sent 1
        (stepBar p probs sent 0 (initState (normalizeInitialCash x)) r0) rest := rfl
  have hlq : (runBacktestLoop p probs sent (normalizeInitialCash x) (r0 :: rest)).positionQty = 0 := by
    rw [hloop, hterm.2.2.2.1, hq]
  have hsim : runBacktestSim p probs sent (normalizeInitialCash x) (r0 :: rest) =
      runBacktestLoop p probs sent (normalizeInitialCash x) (r0 :: rest) := by
    rw [runBacktestSim_eq p probs sent (normalizeInitialCash x) (r0 :: rest) (by simp)]
    rw [if_neg (by rw [hlq]; simp)]
  refine ⟨hh, ?_, ?_, ?_, ?_⟩
  · rw [hsim, hloop, hterm.1]
  · rw [hsim, hloop, hterm.2.1, htr]
  · rw [hsim, hloop, hterm.2.2.2.2.1, hmo]
  · simp only [drawdownCircuitEnabled, decide_eq_false_iff_not]
    exact not_lt.mpr hmd

/-- Witness for C10: a run with `max_drawdown = 0` over a single
oversold bar (which would otherwise open a position) halts on that bar
with no trades. -/
theorem nonpositive_max_drawdown_halts_immediately_witness :
    ({ defaultParams with maxDrawdown := 0 } : Params).maxDrawdown ≤ 0 ∧
    ((stepBar { defaultParams with maxDrawdown := 0 } [] [] 0
        (initState (normalizeInitialCash 10000)) oversoldRow).halted = true ∧
      (runBacktestSim { defaultParams with maxDrawdown := 0 } [] []
        (normalizeInitialCash 10000) [oversoldRow]).halted = true ∧
      (runBacktestSim { defaultParams with maxDrawdown := 0 } [] []
        (normalizeInitialCash 10000) [oversoldRow]).trades = [] ∧
      (runBacktestSim { defaultParams with maxDrawdown := 0 } [] []
        (normalizeInitialCash 10000) [oversoldRow]).moHistory = [] ∧
      drawdownCircuitEnabled { defaultParams with maxDrawdown := 0 } = false) :=
  ⟨by norm_num,
   nonpositive_max_drawdown_halts_immediately { defaultParams with maxDrawdown := 0 }
     [] [] 10000 oversoldRow [] (by norm_num)⟩

/-- On an active bar with a long position and positive ATR, the loop
body is exactly the stop/stop/exit decision chain applied to the
bookkept bar state. -/
lemma stepBar_open_long (p : Params) (probs sent : List ℚ) (idx : ℕ)
    (s : SimState) (r : SimRow) (hhalt : s.halted = false)
    (hdd : barDrawdown s r < p.maxDrawdown) (hatr : 0 < r.atr)
    (hq : 0 < s.positionQty) :
    stepBar p probs sent idx s r =
      (if r.low ≤ s.positionEntry - p.stopAtrMult * r.atr then
        closeTrade p.feeRate (activeBarState p s r) r.ts
          (max (s.positionEntry - p.stopAtrMult * r.atr) (1 / 10 ^ 8)) "stop_loss_atr"
      else if (modeSignals p s r (barMlProb p probs idx) (barSentimentOk p sent idx)
          (barCorrBlocked p s r)).2.2.1 then
        closeTrade p.feeRate (activeBarState p s r) r.ts
          (max (s.positionEntry - p.stopAtrMult * r.atr) (1 / 10 ^ 8)) "statarb_stop_loss"
      else if (gatedSignals p s r (barMlProb p probs idx) (barSentimentOk p sent idx)
          (barCorrBlocked p s r)).2 then
        closeTrade p.feeRate (activeBarState p s r) r.ts r.close "exit_signal"
      else activeBarState p s r) := by
  have hnd : ¬ (p.maxDrawdown ≤ barDrawdown s r) := not_le.mpr hdd
  unfold stepBar
  simp [hhalt, hnd, hatr, hq]

/-- On an active bar with a short position and positive ATR, the loop
body is the short stop/stop/exit decision chain. -/
lemma stepBar_open_short (p : Params) (probs sent : List ℚ) (idx : ℕ)
    (s : SimState) (r : SimRow) (hhalt : s.halted = false)
    (hdd : barDrawdown s r < p.maxDrawdown) (hatr : 0 < r.atr)
    (hq : s.positionQty < 0) :
    stepBar p probs sent idx s r =
      (if s.positionEntry + p.stopAtrMult * r.atr ≤ r.high then
        closeTrade p.feeRate (activeBarState p s r) r.ts
          (max (s.positionEntry + p.stopAtrMult * r.atr) (1 / 10 ^ 8)) "stop_loss_atr_short"
      else if (modeSignals p s r (barMlProb p probs idx) (barSentimentOk p sent idx)
          (barCorrBlocked p s r)).2.2.1 then
        closeTrade p.feeRate (activeBarState p s r) r.ts
          (max (s.positionEntry + p.stopAtrMult * r.atr) (1 / 10 ^ 8)) "statarb_stop_loss"
      else if (gatedSignals p s r (barMlProb p probs idx) (barSentimentOk p sent idx)
          (barCorrBlocked p s r)).2 then
        closeTrade p.feeRate (activeBarState p s r) r.ts r.close "exit_signal"
      else activeBarState p s r) := by
  have hnd : ¬ (p.maxDrawdown ≤ barDrawdown s r) := not_le.mpr hdd
  have hq' : ¬ (0 < s.positionQty) := lt_asymm hq
  unfold stepBar
  simp [hhalt, hnd, hatr, hq, hq']

set_option maxRecDepth 8000 in
set_option maxHeartbeats 2000000 in
/-- Counterexample for C5: in a two-bar stat-arb run the short position
opened on the first bar is stopped out by the ATR stop on the second bar
(the stop condition `entry + mult×ATR ≤ high` holds there), yet the
ledger reason is `stop_loss_atr_short`, not the claimed `stop_loss_atr`. -/
theorem short_atr_stop_reason_cex :
    ((runBacktestLoop statArbParams [] [] 10000 [shortEntryRow, shortStopRow]).trades.map
        Trade.reason) = ["entry_signal_statarb", "stop_loss_atr_short"] ∧
    (runBacktestLoop statArbParams [] [] 10000 [shortEntryRow]).positionEntry +
        statArbParams.stopAtrMult * shortStopRow.atr ≤ shortStopRow.high ∧
    "stop_loss_atr_short" ≠ "stop_loss_atr" := by
  refine ⟨?_, ?_, by decide⟩ <;>
    norm_num [runBacktestLoop, simulateFrom, stepBar, initState, statArbParams, defaultParams,
      shortEntryRow, shortStopRow, barEquity, barPeak, barDrawdown, drawdownOf, gatedSignals,
      modeSignals, resolveMode, isTrending, rawMeanReversionSignal, rawMomentumSignal,
      statarbEntrySign, statarbExitSignal, statarbStopSignal, zscoreOf, safeCorrSq, lastN,
      openTrade, closeTrade, roundTo, roundHalfEven, constList, listMean, barMlProb,
      barSentimentScore, barSentimentOk, barCorrSq, barCorrBlocked, activeBarState,
      abs_of_pos, abs_of_nonneg, abs_of_nonpos, abs_of_neg,
      show Mode.statArb ≠ Mode.adaptive from by decide,
      show Mode.meanReversion ≠ Mode.statArb from by decide]

/-- C5 (amended): on every active bar with an open position and positive
ATR, the transition is the priority chain ATR stop, then z-score stop,
then soft exit; the ATR stop closes at `max(stop, 1e-8)` with reason
`stop_loss_atr` for a long and `stop_loss_atr_short` for a short
position, the z-score stop closes at the same floored ATR-stop price
with reason `statarb_stop_loss`, and the soft exit closes at the bar's
close with reason `exit_signal`. -/
theorem stop_checks_precede_exits (p : Params) (probs sent : List ℚ)
    (idx : ℕ) (s : SimState) (r : SimRow) (hhalt : s.halted = false)
    (hdd : barDrawdown s r < p.maxDrawdown) (hatr : 0 < r.atr) :
    ((0 < s.positionQty → r.low ≤ s.positionEntry - p.stopAtrMult * r.atr →
      ∃ t : Trade, (stepBar p probs sent idx s r).trades = s.trades ++ [t] ∧
        t.reason = "stop_loss_atr" ∧
        t.price = roundTo 8 (max (s.positionEntry - p.stopAtrMult * r.atr) (1 / 10 ^ 8)) ∧
        (stepBar p probs sent idx s r).positionQty = 0) ∧
     (0 < s.positionQty → ¬ (r.low ≤ s.positionEntry - p.stopAtrMult * r.atr) →
      (modeSignals p s r (barMlProb p probs idx) (barSentimentOk p sent idx)
        (barCorrBlocked p s r)).2.2.1 = true →
      ∃ t : Trade, (stepBar p probs sent idx s r).trades = s.trades ++ [t] ∧
        t.reason = "statarb_stop_loss" ∧
        t.price = roundTo 8 (max (s.positionEntry - p.stopAtrMult * r.atr) (1 / 10 ^ 8)) ∧
        (stepBar p probs sent idx s r).positionQty = 0) ∧
     (0 < s.positionQty → ¬ (r.low ≤ s.positionEntry - p.stopAtrMult * r.atr) →
      (modeSignals p s r (barMlProb p probs idx) (barSentimentOk p sent idx)
        (barCorrBlocked p s r)).2.2.1 = false →
      (gatedSignals p s r (barMlProb p probs idx) (barSentimentOk p sent idx)
        (barCorrBlocked p s r)).2 = true →
      ∃ t : Trade, (stepBar p probs sent idx s r).trades = s.trades ++ [t] ∧
        t.reason = "exit_signal" ∧ t.price = roundTo 8 r.close ∧
        (stepBar p probs sent idx s r).positionQty = 0)) ∧
    ((s.positionQty < 0 → s.positionEntry + p.stopAtrMult * r.atr ≤ r.high →
      ∃ t : Trade, (stepBar p probs sent idx s r).trades = s.trades ++ [t] ∧
        t.reason = "stop_loss_atr_short" ∧
        t.price = roundTo 8 (max (s.positionEntry + p.stopAtrMult * r.atr) (1 / 10 ^ 8)) ∧
        (stepBar p probs sent idx s r).positionQty = 0) ∧
     (s.positionQty < 0 → ¬ (s.positionEntry + p.stopAtrMult * r.atr ≤ r.high) →
      (modeSignals p s r (barMlProb p probs idx) (barSentimentOk p sent idx)
        (barCorrBlocked p s r)).2.2.1 = true →
      ∃ t : Trade, (stepBar p probs sent idx s r).trades = s.trades ++ [t] ∧
        t.reason = "statarb_stop_loss" ∧
        t.price = roundTo 8 (max (s.positionEntry + p.stopAtrMult * r.atr) (1 / 10 ^ 8)) ∧
        (stepBar p probs sent idx s r).positionQty = 0) ∧
     (s.positionQty < 0 → ¬ (s.positionEntry + p.stopAtrMult * r.atr ≤ r.high) →
      (modeSignals p s r (barMlProb p probs idx) (barSentimentOk p sent idx)
        (barCorrBlocked p s r)).2.2.1 = false →
      (gatedSignals p s r (barMlProb p probs idx) (barSentimentOk p sent idx)
        (barCorrBlocked p s r)).2 = true →
      ∃ t : Trade, (stepBar p probs sent idx s r).trades = s.trades ++ [t] ∧
        t.reason = "exit_signal" ∧ t.price = roundTo 8 r.close ∧
        (stepBar p probs sent idx s r).positionQty = 0)) := by
  constructor
  · refine ⟨fun hq hstop => ?_, fun hq hnstop hsig => ?_, fun hq hnstop hnsig hexit => ?_⟩
    · rw [stepBar_open_long p probs sent idx s r hhalt hdd hatr hq, if_pos hstop]
      obtain ⟨t, ht, hr, hp⟩ := closeTrade_trades_of_ne p.feeRate (activeBarState p s r)
        r.ts (max (s.positionEntry - p.stopAtrMult * r.atr) (1 / 10 ^ 8)) "stop_loss_atr"
        (show (activeBarState p s r).positionQty ≠ 0 from hq.ne')
      exact ⟨t, ht, hr, hp, closeTrade_positionQty _ _ _ _ _⟩
    · rw [stepBar_open_long p probs sent idx s r hhalt hdd hatr hq, if_neg hnstop,
        if_pos hsig]
      obtain ⟨t, ht, hr, hp⟩ := closeTrade_trades_of_ne p.feeRate (activeBarState p s r)
        r.ts (max (s.positionEntry - p.stopAtrMult * r.atr) (1 / 10 ^ 8)) "statarb_stop_loss"
        (show (activeBarState p s r).positionQty ≠ 0 from hq.ne')
      exact ⟨t, ht, hr, hp, closeTrade_positionQty _ _ _ _ _⟩
    · rw [stepBar_open_long p probs sent idx s r hhalt hdd hatr hq, if_neg hnstop,
        if_neg (by simp [hnsig]), if_pos hexit]
      obtain ⟨t, ht, hr, hp⟩ := closeTrade_trades_of_ne p.feeRate (activeBarState p s r)
        r.ts r.close "exit_signal"
        (show (activeBarState p s r).positionQty ≠ 0 from hq.ne')
      exact ⟨t, ht, hr, hp, closeTrade_positionQty _ _ _ _ _⟩
  · refine ⟨fun hq hstop => ?_, fun hq hnstop hsig => ?_, fun hq hnstop hnsig hexit => ?_⟩
    · rw [stepBar_open_short p probs sent idx s r hhalt hdd hatr hq, if_pos hstop]
      obtain ⟨t, ht, hr, hp⟩ := closeTrade_trades_of_ne p.feeRate (activeBarState p s r)
        r.ts (max (s.positionEntry + p.stopAtrMult * r.atr) (1 / 10 ^ 8)) "stop_loss_atr_short"
        (show (activeBarState p s r).positionQty ≠ 0 from hq.ne)
      exact ⟨t, ht, hr, hp, closeTrade_positionQty _ _ _ _ _⟩
    · rw [stepBar_open_short p probs sent idx s r hhalt hdd hatr hq, if_neg hnstop,
        if_pos hsig]
      obtain ⟨t, ht, hr, hp⟩ := closeTrade_trades_of_ne p.feeRate (activeBarState p s r)
        r.ts (max (s.positionEntry + p.stopAtrMult * r.atr) (1 / 10 ^ 8)) "statarb_stop_loss"
        (show (activeBarState p s r).positionQty ≠ 0 from hq.ne)
      exact ⟨t, ht, hr, hp, closeTrade_positionQty _ _ _ _ _⟩
    · rw [stepBar_open_short p probs sent idx s r hhalt hdd hatr hq, if_neg hnstop,
        if_neg (by simp [hnsig]), if_pos hexit]
      obtain ⟨t, ht, hr, hp⟩ := closeTrade_trades_of_ne p.feeRate (activeBarState p s r)
        r.ts r.close "exit_signal"
        (show (activeBarState p s r).positionQty ≠ 0 from hq.ne)
      exact ⟨t, ht, hr, hp, closeTrade_positionQty _ _ _ _ _⟩

/-- Witness for C5: concrete long and short open positions whose ATR
stops fire, closing with the matching reason codes. -/
theorem stop_checks_precede_exits_witness :
    (longOpenState.halted = false ∧
      barDrawdown longOpenState atrStopLongRow < defaultParams.maxDrawdown ∧
      0 < atrStopLongRow.atr ∧ 0 < longOpenState.positionQty ∧
      atrStopLongRow.low ≤ longOpenState.positionEntry -
        defaultParams.stopAtrMult * atrStopLongRow.atr) ∧
    (∃ t : Trade,
      (stepBar defaultParams [] [] 0 longOpenState atrStopLongRow).trades =
        longOpenState.trades ++ [t] ∧
      t.reason = "stop_loss_atr" ∧
      t.price = roundTo 8 (max (longOpenState.positionEntry -
        defaultParams.stopAtrMult * atrStopLongRow.atr) (1 / 10 ^ 8)) ∧
      (stepBar defaultParams [] [] 0 longOpenState atrStopLongRow).positionQty = 0) ∧
    (∃ t : Trade,
      (stepBar defaultParams [] [] 0 shortOpenState atrStopShortRow).trades =
        shortOpenState.trades ++ [t] ∧
      t.reason = "stop_loss_atr_short" ∧
      t.price = roundTo 8 (max (shortOpenState.positionEntry +
        defaultParams.stopAtrMult * atrStopShortRow.atr) (1 / 10 ^ 8)) ∧
      (stepBar defaultParams [] [] 0 shortOpenState atrStopShortRow).positionQty = 0) := by
  have hddL : barDrawdown longOpenState atrStopLongRow < defaultParams.maxDrawdown := by
    norm_num [barDrawdown, barPeak, barEquity, drawdownOf, longOpenState, atrStopLongRow,
      initState, defaultParams]
  have hddS : barDrawdown shortOpenState atrStopShortRow < defaultParams.maxDrawdown := by
    norm_num [barDrawdown, barPeak, barEquity, drawdownOf, shortOpenState, atrStopShortRow,
      initState, defaultParams]
  refine ⟨⟨rfl, hddL, by norm_num [atrStopLongRow], ?_, ?_⟩, ?_, ?_⟩
  · norm_num [longOpenState, initState]
  · norm_num [longOpenState, atrStopLongRow, defaultParams, initState]
  · exact (stop_checks_precede_exits defaultParams [] [] 0 longOpenState atrStopLongRow
      rfl hddL (by norm_num [atrStopLongRow])).1.1
      (by norm_num [longOpenState, initState])
      (by norm_num [longOpenState, atrStopLongRow, defaultParams, initState])
  · exact (stop_checks_precede_exits defaultParams [] [] 0 shortOpenState atrStopShortRow
      rfl hddS (by norm_num [atrStopShortRow])).2.1
      (by norm_num [shortOpenState, initState])
      (by norm_num [shortOpenState, atrStopShortRow, defaultParams, initState])

/-- Counterexample for C6: with a requested slow window of 2 (and the
default fast window 50), normalization forces both windows to 2, so the
fast window is *not* strictly below the slow window. -/
theorem momentum_windows_equal_cex :
    (normalizeParams { defaultArgs with momentumSlow := 2 }).momentumFast = 2 ∧
    (normalizeParams { defaultArgs with momentumSlow := 2 }).momentumSlow = 2 ∧
    ¬ ((normalizeParams { defaultArgs with momentumSlow := 2 }).momentumFast <
        (normalizeParams { defaultArgs with momentumSlow := 2 }).momentumSlow) := by
  refine ⟨?_, ?_, ?_⟩ <;> decide

/-- C6 (amended): after normalization the fast trend window is strictly
below the slow one whenever the normalized slow window exceeds its
clamp floor of 2; when the slow window is clamped at 2 both windows are
forced to 2 and coincide. -/
theorem momentum_fast_forced_below_slow (a : Args) :
    ((normalizeParams a).momentumFast < (normalizeParams a).momentumSlow ∨
      ((normalizeParams a).momentumFast = 2 ∧ (normalizeParams a).momentumSlow = 2)) ∧
    (2 < (normalizeParams a).momentumSlow →
      (normalizeParams a).momentumFast < (normalizeParams a).momentumSlow) := by
  simp only [normalizeParams]
  split_ifs with h <;> omega

/-- Witness for C6: the default windows (50/200) stay strictly ordered. -/
theorem momentum_fast_forced_below_slow_witness :
    2 < (normalizeParams defaultArgs).momentumSlow ∧
    (normalizeParams defaultArgs).momentumFast <
      (normalizeParams defaultArgs).momentumSlow := by
  have h : 2 < (normalizeParams defaultArgs).momentumSlow := by
    norm_num [normalizeParams, defaultArgs]
  exact ⟨h, (momentum_fast_forced_below_slow defaultArgs).2 h⟩

lemma indicatorRow_none_of_small_bb (p : Params) (bars : List Bar) (i : ℕ)
    (h : i + 1 < p.bbWindow) : indicatorRow p bars i = none := by
  unfold indicatorRow
  cases hb : bars.get? i with
  | none => rfl
  | some b =>
    have hs : smaCell p (bars.map Bar.close) i = none := by
      unfold smaCell rollingCell
      apply if_neg
      rintro ⟨-, hw⟩
      omega
    simp [hb, hs]

lemma indicatorRow_none_of_small_rsi (p : Params) (bars : List Bar) (i : ℕ)
    (h : i + 1 < p.rsiPeriod) : indicatorRow p bars i = none := by
  unfold indicatorRow
  cases hb : bars.get? i with
  | none => rfl
  | some b =>
    have hg : rollingCell p.rsiPeriod listMean (upList (bars.map Bar.close)) i = none := by
      unfold rollingCell
      apply if_neg
      rintro ⟨-, hw⟩
      omega
    have hr : rsiCell p.rsiPeriod (bars.map Bar.close) i = none := by
      unfold rsiCell
      rw [hg]
    simp [hb, hr]

lemma indicatorRow_none_of_small_ma (p : Params) (bars : List Bar) (i w : ℕ)
    (h : i + 1 < w) : maCell w (bars.map Bar.close) i = none := by
  unfold maCell rollingCell
  apply if_neg
  rintro ⟨-, hw⟩
  omega

lemma indicatorRow_none_of_small_fast (p : Params) (bars : List Bar) (i : ℕ)
    (h : i + 1 < p.momentumFast) : indicatorRow p bars i = none := by
  unfold indicatorRow
  cases hb : bars.get? i with
  | none => rfl
  | some b => simp [hb, indicatorRow_none_of_small_ma p bars i p.momentumFast h]

lemma indicatorRow_none_of_small_slow (p : Params) (bars : List Bar) (i : ℕ)
    (h : i + 1 < p.momentumSlow) : indicatorRow p bars i = none := by
  unfold indicatorRow
  cases hb : bars.get? i with
  | none => rfl
  | some b => simp [hb, indicatorRow_none_of_small_ma p bars i p.momentumSlow h]

lemma indicatorRow_none_of_small_atr (p : Params) (bars : List Bar) (i : ℕ)
    (h : i + 1 < p.atrWindow) : indicatorRow p bars i = none := by
  unfold indicatorRow
  cases hb : bars.get? i with
  | none => rfl
  | some b =>
    have ha : atrCell p bars i = none := by
      unfold atrCell rollingCell
      apply if_neg
      rintro ⟨-, hw⟩
      omega
    simp [hb, ha]

/-- Every row strictly inside the longest warmup window is undefined. -/
lemma indicatorRow_none_of_warmup (p : Params) (bars : List Bar) (i : ℕ)
    (h : i + 1 < maxIndicatorWindow p) : indicatorRow p bars i = none := by
  simp only [maxIndicatorWindow, lt_max_iff] at h
  rcases h with ((h | h) | (h | h)) | h
  · exact indicatorRow_none_of_small_bb p bars i h
  · exact indicatorRow_none_of_small_rsi p bars i h
  · exact indicatorRow_none_of_small_fast p bars i h
  · exact indicatorRow_none_of_small_slow p bars i h
  · exact indicatorRow_none_of_small_atr p bars i h

/-- Counterexample for C4: with every window at 2 and strictly rising
closes, the longest warmup is 1 bar, yet row 4 — well past the warmup —
still carries an undefined indicator (the oscillator's rolling average
loss is 0 there), so the undefined rows are not exactly the first
`max(window) - 1`. -/
theorem indicator_warmup_cex :
    indicatorRow smallWindowParams risingBars 4 = none ∧
    maxIndicatorWindow smallWindowParams - 1 ≤ 4 ∧ 4 < risingBars.length := by
  refine ⟨?_, by decide, by decide⟩
  norm_num [indicatorRow, smaCell, stdSqCell, rsiCell, atrCell, maCell, trendStrengthCell,
    rollingCell, trailingWindow, allSome, listMean, popVar, upList, downList, diffCell,
    trList, trCell, risingBars, smallWindowParams, defaultParams, List.range_succ]

/-- C4 (amended): the indicator frame is aligned 1:1 with the input
bars; every row strictly inside the longest warmup window
(`max(window) - 1` bars) is undefined — the oscillator additionally
stays undefined one bar longer and wherever its rolling average loss is
zero — and the simulated rows are exactly the defined rows of the frame,
so no simulated row carries an undefined indicator. -/
theorem indicator_frame_alignment (p : Params) (bars : List Bar) :
    (indicatorRows p bars).length = bars.length ∧
    (∀ i, i + 1 < maxIndicatorWindow p → indicatorRow p bars i = none) ∧
    (∀ row ∈ indicatorReadyRows p bars,
      ∃ i, i < bars.length ∧ indicatorRow p bars i = some row) := by
  refine ⟨by simp [indicatorRows], fun i h => indicatorRow_none_of_warmup p bars i h, ?_⟩
  intro row hrow
  rw [indicatorReadyRows] at hrow
  obtain ⟨i, hi, heq⟩ := List.mem_filterMap.mp hrow
  exact ⟨i, List.mem_range.mp hi, heq⟩

/-- Witness for C4: on the zig-zag bars with all windows at 2, row 0 is
dropped as warmup and the ready rows contain the fully-defined row 2. -/
theorem indicator_frame_alignment_witness :
    (indicatorRows smallWindowParams zigzagBars).length = zigzagBars.length ∧
    (0 + 1 < maxIndicatorWindow smallWindowParams ∧
      indicatorRow smallWindowParams zigzagBars 0 = none) ∧
    (zigzagReadyRow ∈ indicatorReadyRows smallWindowParams zigzagBars ∧
      ∃ i, i < zigzagBars.length ∧
        indicatorRow smallWindowParams zigzagBars i = some zigzagReadyRow) := by
  have h2 : indicatorRow smallWindowParams zigzagBars 2 = some zigzagReadyRow := by
    norm_num [indicatorRow, smaCell, stdSqCell, rsiCell, atrCell, maCell, trendStrengthCell,
      rollingCell, trailingWindow, allSome, listMean, popVar, upList, downList, diffCell,
      trList, trCell, zigzagBars, smallWindowParams, defaultParams, zigzagReadyRow,
      List.range_succ]
  have hmem : zigzagReadyRow ∈ indicatorReadyRows smallWindowParams zigzagBars := by
    rw [indicatorReadyRows]
    exact List.mem_filterMap.mpr ⟨2, by decide, h2⟩
  exact ⟨(indicator_frame_alignment smallWindowParams zigzagBars).1,
    ⟨by decide, (indicator_frame_alignment smallWindowParams zigzagBars).2.1 0 (by decide)⟩,
    hmem, (indicator_frame_alignment smallWindowParams zigzagBars).2.2 _ hmem⟩

/-- Witness for C9: a concrete trace (the dry-run market-order path with
no caps configured) satisfies the invariant. -/
theorem risk_summary_matches_risk_blocks_witness :
    (applyRiskBlocks
      [("order_amount", "pass"), ("order_price", "skip"),
       ("symbol_format", "pass"), ("execution_confirmation", "skip"),
       ("notional_cap", "skip"), ("balance_cap", "skip")]
      ExecState.init).summaryTotal =
    (applyRiskBlocks
      [("order_amount", "pass"), ("order_price", "skip"),
       ("symbol_format", "pass"), ("execution_confirmation", "skip"),
       ("notional_cap", "skip"), ("balance_cap", "skip")]
      ExecState.init).blocks.length :=
  risk_summary_matches_risk_blocks.2 _ (by decide)

end TradingFoundation
